import Mathlib

/-!
Shallow embedding of the "memory tree" visualization sources
(src/unnamed/part_000: Foliage, Memories, Ornaments; src/components/Spiral.tsx:
Spiral and Experience; src/components/Overlay.tsx; src/components/Star.tsx)
together with proofs of the specification claims about them.

JavaScript numbers are modelled as real numbers; mutation of refs and shader
uniforms is modelled by explicit state passing.
-/

namespace MemoryTree

noncomputable section

/-- Modelled from the spec: the type `TreeMorphState` lives in `src/types`,
which is not part of the provided sources; the spec describes it as "a binary
toggle state (tree-shape vs. scattered)" and the sources use exactly the two
values `TreeMorphState.TREE_SHAPE` and `TreeMorphState.SCATTERED`. -/
inductive TreeMorphState where
  | TREE_SHAPE : TreeMorphState
  | SCATTERED : TreeMorphState
deriving DecidableEq, Repr

open TreeMorphState

/-- A 3-component vector, modelling `THREE.Vector3` and the `(x, y, z)`
triples written into the `Float32Array` attribute buffers. -/
structure Vec3 where
  x : ℝ
  y : ℝ
  z : ℝ

/-- `THREE.MathUtils.lerp(x, y, t) = x + (y - x) * t`. -/
def mathUtilsLerp (x y t : ℝ) : ℝ := x + (y - x) * t

/-- One frame of the Foliage transition logic
(src/unnamed/part_000, lines 146-156): the target is `1.0` when the tree
state is `TREE_SHAPE` and `0.0` otherwise, and `currentProgress` moves by
`speed = 2.0 * delta` toward it, clamped by `min`/`max`. -/
def foliageFrameStep (treeState : TreeMorphState) (delta currentProgress : ℝ) : ℝ :=
  let targetProgress : ℝ := if treeState = TREE_SHAPE then 1 else 0
  let speed := 2 * delta
  if currentProgress < targetProgress then min (currentProgress + speed) 1
  else if currentProgress > targetProgress then max (currentProgress - speed) 0
  else currentProgress

/-- One frame of the Spiral transition logic
(src/components/Spiral.tsx, lines 147-155): same stepping as Foliage with
rate `2.0`. -/
def spiralFrameStep (treeState : TreeMorphState) (delta currentProgress : ℝ) : ℝ :=
  let target : ℝ := if treeState = TREE_SHAPE then 1 else 0
  let speed := 2 * delta
  if currentProgress < target then min (currentProgress + speed) 1
  else if currentProgress > target then max (currentProgress - speed) 0
  else currentProgress

/-- One frame of the Ornaments progress stepping
(src/unnamed/part_000, lines 469-476): rate `1.5 * delta`, clamped into
`[0, 1]`. -/
def ornamentProgressStep (treeState : TreeMorphState) (delta progress : ℝ) : ℝ :=
  let target : ℝ := if treeState = TREE_SHAPE then 1 else 0
  let speed := 1.5 * delta
  if progress < target then min (progress + speed) 1
  else if progress > target then max (progress - speed) 0
  else progress

/-- The toggle target of the transition: `1` for `TREE_SHAPE`, `0` otherwise. -/
def morphTarget (treeState : TreeMorphState) : ℝ :=
  if treeState = TREE_SHAPE then 1 else 0

/-- The Ornaments easing curve (src/unnamed/part_000, line 479):
`t < 0.5 ? 4 * t * t * t : 1 - Math.pow(-2 * t + 2, 3) / 2`. -/
def easedT (t : ℝ) : ℝ :=
  if t < 0.5 then 4 * t * t * t else 1 - (-2 * t + 2) ^ 3 / 2

/-- Componentwise linear interpolation between an entry of the scatter point
set and the matching entry of the tree point set at blend parameter `e` —
the "apply the blend" operation in the spec's words. -/
def vecLerp (a b : Vec3) (e : ℝ) : Vec3 :=
  { x := mathUtilsLerp a.x b.x e
    y := mathUtilsLerp a.y b.y e
    z := mathUtilsLerp a.z b.z e }

/-- The position written for one sphere (bauble) instance during one
Ornaments frame (src/unnamed/part_000, lines 478-479 and 519-523): the
progress is stepped, the frame's eased value is computed, and the instance
position is set to the componentwise lerp of its scatter and tree positions
at the eased value. -/
def ornamentSphereFramePos (treeState : TreeMorphState) (delta progress : ℝ)
    (scatterPos treePos : Vec3) : Vec3 :=
  let t := ornamentProgressStep treeState delta progress
  let e := easedT t
  { x := mathUtilsLerp scatterPos.x treePos.x e
    y := mathUtilsLerp scatterPos.y treePos.y e
    z := mathUtilsLerp scatterPos.z treePos.z e }

/-- The position written for one box (gift) instance during one Ornaments
frame (src/unnamed/part_000, lines 478-479 and 488-496): the lerp of the two
point sets at the eased value, plus, while `t < 0.9`, the floating noise
`Math.sin(time + data.id) * ((1 - t) * 0.5)` on the y component. -/
def ornamentBoxFramePos (treeState : TreeMorphState) (delta progress time id : ℝ)
    (scatterPos treePos : Vec3) : Vec3 :=
  let t := ornamentProgressStep treeState delta progress
  let e := easedT t
  let base : Vec3 :=
    { x := mathUtilsLerp scatterPos.x treePos.x e
      y := mathUtilsLerp scatterPos.y treePos.y e
      z := mathUtilsLerp scatterPos.z treePos.z e }
  if t < 0.9 then { base with y := base.y + Real.sin (time + id) * ((1 - t) * 0.5) }
  else base

/-- `Math.cbrt` on the nonnegative reals (the sources only apply it to
values of `Math.random()`, which lie in `[0, 1)`). -/
def mathCbrt (x : ℝ) : ℝ := x ^ ((1 : ℝ) / 3)

/-- The tree-shape (conical spiral) point generated for foliage particle `i`
(src/unnamed/part_000, lines 102-118). `TREE_HEIGHT` and
`TREE_RADIUS_BOTTOM` come from `src/constants`, which is not among the
provided sources, so they are parameters here; `jitter` is the
`Math.random()` sample used for the foliage-layer thickness. -/
def foliageTreePos (TREE_HEIGHT TREE_RADIUS_BOTTOM : ℝ)
    (FOLIAGE_COUNT i : ℕ) (jitter : ℝ) : Vec3 :=
  let t : ℝ := (i : ℝ) / (FOLIAGE_COUNT : ℝ)
  let angle := t * Real.pi * 2 * 30
  let y := -(TREE_HEIGHT / 2) + t * TREE_HEIGHT
  let radiusAtHeight := ((TREE_HEIGHT / 2 - y) / TREE_HEIGHT) * TREE_RADIUS_BOTTOM
  let r := radiusAtHeight + (jitter - 0.5) * 1.5
  { x := Real.cos angle * r, y := y, z := Real.sin angle * r }

/-- The scatter-shape (spherical volume) point generated for a foliage
particle (src/unnamed/part_000, lines 120-127); `u1`, `u2`, `u3` are the
three `Math.random()` samples. -/
def foliageScatterPos (SCATTER_RADIUS : ℝ) (u1 u2 u3 : ℝ) : Vec3 :=
  let theta := u1 * Real.pi * 2
  let phi := Real.arccos (2 * u2 - 1)
  let sr := SCATTER_RADIUS * mathCbrt u3
  { x := sr * Real.sin phi * Real.cos theta
    y := sr * Real.sin phi * Real.sin theta
    z := sr * Real.cos phi }

/-- The tree-shape (helix) point generated for spiral particle `i`
(src/components/Spiral.tsx, lines 98-118), with `turns = 6.0` and
`heightOffset = 1.0`. -/
def spiralTreePos (TREE_HEIGHT TREE_RADIUS_BOTTOM : ℝ)
    (SPIRAL_PARTICLE_COUNT i : ℕ) : Vec3 :=
  let turns : ℝ := 6.0
  let heightOffset : ℝ := 1.0
  let p : ℝ := (i : ℝ) / (SPIRAL_PARTICLE_COUNT : ℝ)
  let y := -(TREE_HEIGHT / 2) + p * TREE_HEIGHT + heightOffset
  let rawRadius := ((TREE_HEIGHT / 2 - (y - heightOffset)) / TREE_HEIGHT) * TREE_RADIUS_BOTTOM
  let r := max 0.1 (rawRadius + 0.6)
  let angle := p * Real.pi * 2 * turns
  { x := Real.cos angle * r, y := y, z := Real.sin angle * r }

/-- The mutable state touched by the Foliage component's `useFrame` callback:
the three shader uniforms it writes (`uTime`, `uPixelDpr` models
`uPixelRatio`, set from `state.viewport.dpr`, and `uProgress`), the
`currentProgress` ref, and the three memoized attribute arrays produced by
the `useMemo(..., [])` block (tree positions, scatter positions, per-particle
randoms). -/
structure FoliageFrameState where
  uTime : ℝ
  uPixelDpr : ℝ
  uProgress : ℝ
  currentProgress : ℝ
  positions : List ℝ
  scatterPositions : List ℝ
  randoms : List ℝ

/-- One run of the Foliage `useFrame` callback (src/unnamed/part_000, lines
140-158): it assigns `uTime` and the pixel-ratio uniform, steps the progress
ref, and copies it into `uProgress`; nothing else is assigned. -/
def foliageFrame (treeState : TreeMorphState) (elapsedTime dpr delta : ℝ)
    (s : FoliageFrameState) : FoliageFrameState :=
  let p := foliageFrameStep treeState delta s.currentProgress
  { s with uTime := elapsedTime, uPixelDpr := dpr, currentProgress := p, uProgress := p }

/-- Iterated Foliage frames: each list entry is one frame's
`(treeState, elapsedTime, dpr, delta)`. -/
def foliageFrameRun (frames : List (TreeMorphState × ℝ × ℝ × ℝ))
    (s : FoliageFrameState) : FoliageFrameState :=
  frames.foldl (fun s f => foliageFrame f.1 f.2.1 f.2.2.1 f.2.2.2 s) s

/-- The mutable state touched by the Spiral component's `useFrame` callback,
with its memoized attribute arrays (tree positions, scatter positions,
per-particle line progress) from the `useMemo(..., [])` block
(src/components/Spiral.tsx, lines 93-139). -/
structure SpiralFrameState where
  uTime : ℝ
  uPixelDpr : ℝ
  uProgress : ℝ
  currentProgress : ℝ
  treePositions : List ℝ
  scatterPositions : List ℝ
  lineProgress : List ℝ

/-- One run of the Spiral `useFrame` callback (src/components/Spiral.tsx,
lines 141-157). -/
def spiralFrame (treeState : TreeMorphState) (elapsedTime dpr delta : ℝ)
    (s : SpiralFrameState) : SpiralFrameState :=
  let p := spiralFrameStep treeState delta s.currentProgress
  { s with uTime := elapsedTime, uPixelDpr := dpr, currentProgress := p, uProgress := p }

/-- Iterated Spiral frames. -/
def spiralFrameRun (frames : List (TreeMorphState × ℝ × ℝ × ℝ))
    (s : SpiralFrameState) : SpiralFrameState :=
  frames.foldl (fun s f => spiralFrame f.1 f.2.1 f.2.2.1 f.2.2.2 s) s

/-- Progress of Foliage after a sequence of frames with elapsed-time steps
`deltas` under a constant toggle state. -/
def foliageProgressAfter (treeState : TreeMorphState) (deltas : List ℝ) (p0 : ℝ) : ℝ :=
  deltas.foldl (fun p d => foliageFrameStep treeState d p) p0

/-- Progress of Spiral after a sequence of frames under a constant toggle
state. -/
def spiralProgressAfter (treeState : TreeMorphState) (deltas : List ℝ) (p0 : ℝ) : ℝ :=
  deltas.foldl (fun p d => spiralFrameStep treeState d p) p0

/-- Foliage progress after arbitrary frames, each with its own toggle state
and delta. -/
def foliageProgressRun (frames : List (TreeMorphState × ℝ)) (p0 : ℝ) : ℝ :=
  frames.foldl (fun p f => foliageFrameStep f.1 f.2 p) p0

/-- Spiral progress after arbitrary frames. -/
def spiralProgressRun (frames : List (TreeMorphState × ℝ)) (p0 : ℝ) : ℝ :=
  frames.foldl (fun p f => spiralFrameStep f.1 f.2 p) p0

/-- Ornaments progress after arbitrary frames. -/
def ornamentProgressRun (frames : List (TreeMorphState × ℝ)) (p0 : ℝ) : ℝ :=
  frames.foldl (fun p f => ornamentProgressStep f.1 f.2 p) p0

/-- A rendered button of the Overlay: its visible label and its `onClick`
handler. -/
structure OverlayButton (σ : Type) where
  label : String
  onClick : σ → σ

/-- The user-facing controls rendered by the Overlay
(src/components/Overlay.tsx, lines 9-44): a single `<button>` whose
`onClick` is the `onToggle` prop and whose label is
`isTree ? "RELEASE MEMORY" : "RESTORE ORDER"` with
`isTree = (treeState === TreeMorphState.TREE_SHAPE)`. -/
def overlayRender {σ : Type} (treeState : TreeMorphState)
    (onToggle : σ → σ) : List (OverlayButton σ) :=
  let isTree : Bool := treeState = TREE_SHAPE
  [{ label := if isTree then "RELEASE MEMORY" else "RESTORE ORDER"
     onClick := onToggle }]

/-- The visual components composed inside the Experience's `<Float>` group
(src/components/Spiral.tsx, lines 294-312). -/
inductive SceneElem where
  | foliageElem : SceneElem
  | ornamentsElem : SceneElem
  | spiralElem : SceneElem
  | memoriesElem : SceneElem
  | starElem : SceneElem
deriving DecidableEq, Repr

/-- State of `ImageErrorBoundary` (src/components/Spiral.tsx, lines
227-241). -/
structure ImageErrorBoundaryState where
  hasError : Bool
deriving DecidableEq, Repr

/-- The boundary's constructor state: `this.state = { hasError: false }`. -/
def imageErrorBoundaryInit : ImageErrorBoundaryState := { hasError := false }

/-- Source: `static getDerivedStateFromError() { return { hasError: true }; }`. -/
def getDerivedStateFromError : ImageErrorBoundaryState := { hasError := true }

/-- One render pass of the boundary:
`render() { return this.state.hasError ? null : this.props.children; }`.
Rendering the children may itself throw, so the children are an
`Except`; the pass returns `none` (React's `null`) without touching the
children when `hasError` is set. -/
def imageErrorBoundaryRenderPass (s : ImageErrorBoundaryState)
    (children : Except String SceneElem) : Except String (Option SceneElem) :=
  if s.hasError then Except.ok none else children.map some

/-- Modelled React error-boundary semantics around the source's class: the
boundary first renders with its constructor state; if the children throw
during that pass, React installs the state returned by
`getDerivedStateFromError` and renders again. -/
def runImageErrorBoundary (children : Except String SceneElem) :
    Except String (Option SceneElem) :=
  match imageErrorBoundaryRenderPass imageErrorBoundaryInit children with
  | Except.ok r => Except.ok r
  | Except.error _ => imageErrorBoundaryRenderPass getDerivedStateFromError children

/-- The children of the Experience's `<Float>` group in source order:
Foliage, Ornaments, Spiral, then Memories wrapped in the
`ImageErrorBoundary` (inside `Suspense`), then Star
(src/components/Spiral.tsx, lines 294-312). Only the Memories subtree can
throw; a slot is `none` when it rendered `null`. -/
def experienceScene (memories : Except String SceneElem) :
    Except String (List (Option SceneElem)) :=
  (runImageErrorBoundary memories).map fun m =>
    [some SceneElem.foliageElem, some SceneElem.ornamentsElem,
     some SceneElem.spiralElem, m, some SceneElem.starElem]

/-- Statement of claim C1 at one frame: the progress moves toward the
toggle target (`1` for `TREE_SHAPE`, `0` otherwise) by `2.0 * delta`
(Foliage, Spiral) respectively `1.5 * delta` (Ornaments), clamped so it
never overshoots the target. -/
def StepsTowardToggleTarget (treeState : TreeMorphState) (delta p : ℝ) : Prop :=
  (p ≤ morphTarget treeState →
      foliageFrameStep treeState delta p = min (p + 2 * delta) (morphTarget treeState)
    ∧ spiralFrameStep treeState delta p = min (p + 2 * delta) (morphTarget treeState)
    ∧ ornamentProgressStep treeState delta p = min (p + 1.5 * delta) (morphTarget treeState))
  ∧ (morphTarget treeState ≤ p →
      foliageFrameStep treeState delta p = max (p - 2 * delta) (morphTarget treeState)
    ∧ spiralFrameStep treeState delta p = max (p - 2 * delta) (morphTarget treeState)
    ∧ ornamentProgressStep treeState delta p = max (p - 1.5 * delta) (morphTarget treeState))

/-- Statement of claim C3: closed form of the Foliage and Spiral progress
after frames with elapsed-time steps `deltas` under a constant toggle state,
and full morph once the accumulated delta reaches `0.5` from an endpoint. -/
def ConstantToggleProgress (deltas : List ℝ) (p0 : ℝ) : Prop :=
  (foliageProgressAfter TREE_SHAPE deltas p0 = min (p0 + 2 * deltas.sum) 1
    ∧ spiralProgressAfter TREE_SHAPE deltas p0 = min (p0 + 2 * deltas.sum) 1)
  ∧ (foliageProgressAfter SCATTERED deltas p0 = max (p0 - 2 * deltas.sum) 0
    ∧ spiralProgressAfter SCATTERED deltas p0 = max (p0 - 2 * deltas.sum) 0)
  ∧ (1 / 2 ≤ deltas.sum →
      (foliageProgressAfter TREE_SHAPE deltas 0 = 1
        ∧ spiralProgressAfter TREE_SHAPE deltas 0 = 1)
      ∧ (foliageProgressAfter SCATTERED deltas 1 = 0
        ∧ spiralProgressAfter SCATTERED deltas 1 = 0))

/-- Statement of claim C4 for one foliage particle: with `t = i / n`, the
tree point lies on the conical spiral `y = -H/2 + t*H`,
`(x, z) = (cos a * r, sin a * r)` with `a = t * 2 * pi * 30` and
`r = ((H/2 - y)/H) * R + j` for some jitter `j` in `[-0.75, 0.75)`; and the
scatter point has Euclidean norm at most `SCATTER_RADIUS`. -/
def FoliageGenSpec (TREE_HEIGHT TREE_RADIUS_BOTTOM SCATTER_RADIUS : ℝ)
    (FOLIAGE_COUNT i : ℕ) (jitter u1 u2 u3 : ℝ) : Prop :=
  let t : ℝ := (i : ℝ) / (FOLIAGE_COUNT : ℝ)
  let p := foliageTreePos TREE_HEIGHT TREE_RADIUS_BOTTOM FOLIAGE_COUNT i jitter
  let q := foliageScatterPos SCATTER_RADIUS u1 u2 u3
  p.y = -(TREE_HEIGHT / 2) + t * TREE_HEIGHT
  ∧ (∃ j : ℝ, -0.75 ≤ j ∧ j < 0.75
      ∧ p.x = Real.cos (t * 2 * Real.pi * 30)
          * ((TREE_HEIGHT / 2 - p.y) / TREE_HEIGHT * TREE_RADIUS_BOTTOM + j)
      ∧ p.z = Real.sin (t * 2 * Real.pi * 30)
          * ((TREE_HEIGHT / 2 - p.y) / TREE_HEIGHT * TREE_RADIUS_BOTTOM + j))
  ∧ Real.sqrt (q.x ^ 2 + q.y ^ 2 + q.z ^ 2) ≤ SCATTER_RADIUS

/-- Statement of claim C8 at one frame: all three per-frame progress updates
keep the progress inside `[0, 1]`. -/
def ProgressStaysInUnitInterval (treeState : TreeMorphState) (delta p : ℝ) : Prop :=
  (0 ≤ foliageFrameStep treeState delta p ∧ foliageFrameStep treeState delta p ≤ 1)
  ∧ (0 ≤ spiralFrameStep treeState delta p ∧ spiralFrameStep treeState delta p ≤ 1)
  ∧ (0 ≤ ornamentProgressStep treeState delta p ∧ ornamentProgressStep treeState delta p ≤ 1)

section StepLemmas

/-- Generic form of the three per-frame clamped steps: when the progress sits
at or below the target (which is `0` or `1`), one step lands exactly at
`min (p + s) T`. -/
lemma clampedStep_of_le {T s p : ℝ} (hs : 0 ≤ s) (hp0 : 0 ≤ p)
    (hT : T = 0 ∨ T = 1) (hpT : p ≤ T) :
    (if p < T then min (p + s) 1 else if p > T then max (p - s) 0 else p)
      = min (p + s) T := by
  rcases lt_or_eq_of_le hpT with hlt | heq
  · have hT1 : T = 1 := by
      rcases hT with h0 | h1
      · exfalso; linarith
      · exact h1
    subst hT1
    rw [if_pos hlt]
  · subst heq
    rw [if_neg (lt_irrefl p), if_neg (lt_irrefl p)]
    have h : p ≤ p + s := by linarith
    exact (min_eq_right h).symm

/-- Generic form of the three per-frame clamped steps: when the progress sits
at or above the target (which is `0` or `1`), one step lands exactly at
`max (p - s) T`. -/
lemma clampedStep_of_ge {T s p : ℝ} (hs : 0 ≤ s) (hp1 : p ≤ 1)
    (hT : T = 0 ∨ T = 1) (hpT : T ≤ p) :
    (if p < T then min (p + s) 1 else if p > T then max (p - s) 0 else p)
      = max (p - s) T := by
  rcases lt_or_eq_of_le hpT with hlt | heq
  · have hT0 : T = 0 := by
      rcases hT with h0 | h1
      · exact h0
      · exfalso; linarith
    subst hT0
    have hnotlt : ¬ (p < 0) := not_lt.mpr hpT
    rw [if_neg hnotlt, if_pos hlt]
  · rw [← heq]
    rw [if_neg (lt_irrefl T), if_neg (lt_irrefl T)]
    have h : T - s ≤ T := by linarith
    exact (max_eq_right h).symm

/-- The Foliage step written through `morphTarget`. -/
lemma foliageFrameStep_eq (treeState : TreeMorphState) (delta p : ℝ) :
    foliageFrameStep treeState delta p =
      if p < morphTarget treeState then min (p + 2 * delta) 1
      else if p > morphTarget treeState then max (p - 2 * delta) 0
      else p := rfl

/-- The Spiral step written through `morphTarget`. -/
lemma spiralFrameStep_eq (treeState : TreeMorphState) (delta p : ℝ) :
    spiralFrameStep treeState delta p =
      if p < morphTarget treeState then min (p + 2 * delta) 1
      else if p > morphTarget treeState then max (p - 2 * delta) 0
      else p := rfl

/-- The Ornaments step written through `morphTarget`. -/
lemma ornamentProgressStep_eq (treeState : TreeMorphState) (delta p : ℝ) :
    ornamentProgressStep treeState delta p =
      if p < morphTarget treeState then min (p + 1.5 * delta) 1
      else if p > morphTarget treeState then max (p - 1.5 * delta) 0
      else p := rfl

/-- The toggle target is always one of the two endpoints. -/
lemma morphTarget_cases (treeState : TreeMorphState) :
    morphTarget treeState = 0 ∨ morphTarget treeState = 1 := by
  cases treeState
  · right; simp [morphTarget]
  · left; simp [morphTarget]

lemma morphTarget_tree : morphTarget TreeMorphState.TREE_SHAPE = 1 := by
  simp [morphTarget]

lemma morphTarget_scattered : morphTarget TreeMorphState.SCATTERED = 0 := by
  simp [morphTarget]

/-- Under `TREE_SHAPE`, one Foliage frame is exactly a clamped increment. -/
lemma foliageFrameStep_tree (delta p : ℝ) (hd : 0 ≤ delta) (hp : p ≤ 1) :
    foliageFrameStep TreeMorphState.TREE_SHAPE delta p = min (p + 2 * delta) 1 := by
  rw [foliageFrameStep_eq, morphTarget_tree]
  rcases lt_or_eq_of_le hp with h | h
  · rw [if_pos h]
  · subst h
    rw [if_neg (lt_irrefl 1), if_neg (lt_irrefl 1)]
    have h1 : (1 : ℝ) ≤ 1 + 2 * delta := by linarith
    exact (min_eq_right h1).symm

/-- Under `SCATTERED`, one Foliage frame is exactly a clamped decrement. -/
lemma foliageFrameStep_scattered (delta p : ℝ) (hd : 0 ≤ delta) (hp : 0 ≤ p) :
    foliageFrameStep TreeMorphState.SCATTERED delta p = max (p - 2 * delta) 0 := by
  rw [foliageFrameStep_eq, morphTarget_scattered]
  rcases lt_or_eq_of_le hp with h | h
  · rw [if_neg (not_lt.mpr hp), if_pos h]
  · rw [← h]
    rw [if_neg (lt_irrefl 0), if_neg (lt_irrefl 0)]
    have h1 : (0 : ℝ) - 2 * delta ≤ 0 := by linarith
    exact (max_eq_right h1).symm

/-- The Spiral step function is the same function as the Foliage one. -/
lemma spiralFrameStep_eq_foliage : spiralFrameStep = foliageFrameStep := rfl

/-- Closed form of the iterated Foliage progress under constant
`TREE_SHAPE`. -/
lemma foliageProgressAfter_tree (deltas : List ℝ) (p0 : ℝ)
    (hd : ∀ d ∈ deltas, 0 ≤ d) (h0 : 0 ≤ p0) (h1 : p0 ≤ 1) :
    foliageProgressAfter TreeMorphState.TREE_SHAPE deltas p0
      = min (p0 + 2 * deltas.sum) 1 := by
  induction deltas generalizing p0 with
  | nil =>
      simp only [foliageProgressAfter, List.foldl_nil, List.sum_nil, mul_zero, add_zero]
      exact (min_eq_left h1).symm
  | cons d ds ih =>
      have hd0 : 0 ≤ d := hd d (List.mem_cons_self d ds)
      have hds : ∀ x ∈ ds, 0 ≤ x := fun x hx => hd x (List.mem_cons_of_mem d hx)
      have hS : 0 ≤ ds.sum := List.sum_nonneg hds
      have hstep : foliageFrameStep TreeMorphState.TREE_SHAPE d p0 = min (p0 + 2 * d) 1 :=
        foliageFrameStep_tree d p0 hd0 h1
      have hq0 : 0 ≤ min (p0 + 2 * d) 1 := le_min (by linarith) (by norm_num)
      have hq1 : min (p0 + 2 * d) 1 ≤ 1 := min_le_right _ _
      have htail := ih (min (p0 + 2 * d) 1) hds hq0 hq1
      have hfold : foliageProgressAfter TreeMorphState.TREE_SHAPE (d :: ds) p0
          = foliageProgressAfter TreeMorphState.TREE_SHAPE ds
              (foliageFrameStep TreeMorphState.TREE_SHAPE d p0) := rfl
      rw [hfold, hstep, htail, List.sum_cons]
      rcases le_total (p0 + 2 * d) 1 with hc | hc
      · rw [min_eq_left hc]
        ring_nf
      · rw [min_eq_right hc]
        have hl : (1 : ℝ) ≤ 1 + 2 * ds.sum := by linarith
        have hr : (1 : ℝ) ≤ p0 + 2 * (d + ds.sum) := by linarith
        rw [min_eq_right hl, min_eq_right hr]

/-- Closed form of the iterated Foliage progress under constant
`SCATTERED`. -/
lemma foliageProgressAfter_scattered (deltas : List ℝ) (p0 : ℝ)
    (hd : ∀ d ∈ deltas, 0 ≤ d) (h0 : 0 ≤ p0) (h1 : p0 ≤ 1) :
    foliageProgressAfter TreeMorphState.SCATTERED deltas p0
      = max (p0 - 2 * deltas.sum) 0 := by
  induction deltas generalizing p0 with
  | nil =>
      simp only [foliageProgressAfter, List.foldl_nil, List.sum_nil, mul_zero, sub_zero]
      exact (max_eq_left h0).symm
  | cons d ds ih =>
      have hd0 : 0 ≤ d := hd d (List.mem_cons_self d ds)
      have hds : ∀ x ∈ ds, 0 ≤ x := fun x hx => hd x (List.mem_cons_of_mem d hx)
      have hS : 0 ≤ ds.sum := List.sum_nonneg hds
      have hstep : foliageFrameStep TreeMorphState.SCATTERED d p0 = max (p0 - 2 * d) 0 :=
        foliageFrameStep_scattered d p0 hd0 h0
      have hq0 : 0 ≤ max (p0 - 2 * d) 0 := le_max_right _ _
      have hq1 : max (p0 - 2 * d) 0 ≤ 1 := max_le (by linarith) (by norm_num)
      have htail := ih (max (p0 - 2 * d) 0) hds hq0 hq1
      have hfold : foliageProgressAfter TreeMorphState.SCATTERED (d :: ds) p0
          = foliageProgressAfter TreeMorphState.SCATTERED ds
              (foliageFrameStep TreeMorphState.SCATTERED d p0) := rfl
      rw [hfold, hstep, htail, List.sum_cons]
      rcases le_total 0 (p0 - 2 * d) with hc | hc
      · rw [max_eq_left hc]
        ring_nf
      · rw [max_eq_right hc]
        have hl : (0 : ℝ) - 2 * ds.sum ≤ 0 := by linarith
        have hr : p0 - 2 * (d + ds.sum) ≤ 0 := by linarith
        rw [max_eq_right hl, max_eq_right hr]

/-- The Spiral fold agrees with the Foliage fold. -/
lemma spiralProgressAfter_eq_foliage (treeState : TreeMorphState)
    (deltas : List ℝ) (p0 : ℝ) :
    spiralProgressAfter treeState deltas p0 = foliageProgressAfter treeState deltas p0 := by
  simp only [spiralProgressAfter, foliageProgressAfter, spiralFrameStep_eq_foliage]

/-- Any of the three clamped steps keeps the progress inside `[0, 1]`. -/
lemma clampedStep_mem {T s p : ℝ} (hs : 0 ≤ s) (h0 : 0 ≤ p) (h1 : p ≤ 1)
    (hT : T = 0 ∨ T = 1) :
    0 ≤ (if p < T then min (p + s) 1 else if p > T then max (p - s) 0 else p)
    ∧ (if p < T then min (p + s) 1 else if p > T then max (p - s) 0 else p) ≤ 1 := by
  have hT0 : 0 ≤ T := by
    rcases hT with h | h
    · rw [h]
    · rw [h]; norm_num
  have hT1 : T ≤ 1 := by
    rcases hT with h | h
    · rw [h]; norm_num
    · rw [h]
  rcases le_total p T with hpT | hpT
  · rw [clampedStep_of_le hs h0 hT hpT]
    exact ⟨le_min (by linarith) hT0, le_trans (min_le_right _ _) hT1⟩
  · rw [clampedStep_of_ge hs h1 hT hpT]
    exact ⟨le_trans hT0 (le_max_right _ _), max_le (by linarith) hT1⟩

/-- One Foliage frame keeps the progress inside `[0, 1]`. -/
lemma foliageFrameStep_mem (treeState : TreeMorphState) (delta p : ℝ)
    (hd : 0 ≤ delta) (h0 : 0 ≤ p) (h1 : p ≤ 1) :
    0 ≤ foliageFrameStep treeState delta p ∧ foliageFrameStep treeState delta p ≤ 1 := by
  rw [foliageFrameStep_eq]
  exact clampedStep_mem (by linarith) h0 h1 (morphTarget_cases treeState)

/-- One Ornaments progress step keeps the progress inside `[0, 1]`. -/
lemma ornamentProgressStep_mem (treeState : TreeMorphState) (delta p : ℝ)
    (hd : 0 ≤ delta) (h0 : 0 ≤ p) (h1 : p ≤ 1) :
    0 ≤ ornamentProgressStep treeState delta p ∧ ornamentProgressStep treeState delta p ≤ 1 := by
  rw [ornamentProgressStep_eq]
  have hs : (0 : ℝ) ≤ 1.5 * delta := by nlinarith
  exact clampedStep_mem hs h0 h1 (morphTarget_cases treeState)

/-- Any run of Foliage frames with nonnegative deltas keeps the progress
inside `[0, 1]`. -/
lemma foliageProgressRun_mem (frames : List (TreeMorphState × ℝ)) (p0 : ℝ)
    (hf : ∀ f ∈ frames, 0 ≤ f.2) (h0 : 0 ≤ p0) (h1 : p0 ≤ 1) :
    0 ≤ foliageProgressRun frames p0 ∧ foliageProgressRun frames p0 ≤ 1 := by
  induction frames generalizing p0 with
  | nil => exact ⟨h0, h1⟩
  | cons f fs ih =>
      have hf0 : 0 ≤ f.2 := hf f (List.mem_cons_self f fs)
      have hfs : ∀ g ∈ fs, 0 ≤ g.2 := fun g hg => hf g (List.mem_cons_of_mem f hg)
      have hmem := foliageFrameStep_mem f.1 f.2 p0 hf0 h0 h1
      exact ih (foliageFrameStep f.1 f.2 p0) hfs hmem.1 hmem.2

/-- Any run of Ornaments frames with nonnegative deltas keeps the progress
inside `[0, 1]`. -/
lemma ornamentProgressRun_mem (frames : List (TreeMorphState × ℝ)) (p0 : ℝ)
    (hf : ∀ f ∈ frames, 0 ≤ f.2) (h0 : 0 ≤ p0) (h1 : p0 ≤ 1) :
    0 ≤ ornamentProgressRun frames p0 ∧ ornamentProgressRun frames p0 ≤ 1 := by
  induction frames generalizing p0 with
  | nil => exact ⟨h0, h1⟩
  | cons f fs ih =>
      have hf0 : 0 ≤ f.2 := hf f (List.mem_cons_self f fs)
      have hfs : ∀ g ∈ fs, 0 ≤ g.2 := fun g hg => hf g (List.mem_cons_of_mem f hg)
      have hmem := ornamentProgressStep_mem f.1 f.2 p0 hf0 h0 h1
      exact ih (ornamentProgressStep f.1 f.2 p0) hfs hmem.1 hmem.2

/-- The Spiral run is the Foliage run. -/
lemma spiralProgressRun_eq_foliage (frames : List (TreeMorphState × ℝ)) (p0 : ℝ) :
    spiralProgressRun frames p0 = foliageProgressRun frames p0 := by
  simp only [spiralProgressRun, foliageProgressRun, spiralFrameStep_eq_foliage]

end StepLemmas

section EasingLemmas

lemma easedT_zero : easedT 0 = 0 := by norm_num [easedT]

lemma easedT_one : easedT 1 = 1 := by norm_num [easedT]

/-- The cubic ease-in-out curve is monotone on `[0, 1]`. -/
lemma easedT_mono {a b : ℝ} (ha : 0 ≤ a) (hab : a ≤ b) (hb : b ≤ 1) :
    easedT a ≤ easedT b := by
  unfold easedT
  by_cases ha5 : a < 0.5
  · by_cases hb5 : b < 0.5
    · rw [if_pos ha5, if_pos hb5]
      have h3 : a ^ 3 ≤ b ^ 3 := pow_le_pow_left₀ ha hab 3
      nlinarith [h3]
    · rw [if_pos ha5, if_neg hb5]
      have hb5' : (0.5 : ℝ) ≤ b := not_lt.mp hb5
      have hc0 : (0 : ℝ) ≤ -2 * b + 2 := by linarith
      have hc1 : -2 * b + 2 ≤ 1 := by linarith
      have hcube : (-2 * b + 2) ^ 3 ≤ 1 := by nlinarith [hc0, hc1, sq_nonneg (-2 * b + 2)]
      have k1 : (0 : ℝ) ≤ 1 / 2 - a := by linarith
      have k2 : (0 : ℝ) ≤ 1 / 4 + a / 2 + a ^ 2 := by nlinarith [sq_nonneg a]
      have hA : 4 * a * a * a ≤ (1 : ℝ) / 2 := by nlinarith [mul_nonneg k1 k2]
      linarith
  · have hb5 : ¬ b < 0.5 := fun h => ha5 (lt_of_le_of_lt hab h)
    rw [if_neg ha5, if_neg hb5]
    have hca : (0 : ℝ) ≤ -2 * b + 2 := by linarith
    have hcc : -2 * b + 2 ≤ -2 * a + 2 := by linarith
    have h3 : (-2 * b + 2) ^ 3 ≤ (-2 * a + 2) ^ 3 := pow_le_pow_left₀ hca hcc 3
    linarith

/-- The cubic ease-in-out curve maps `[0, 1]` into `[0, 1]`. -/
lemma easedT_mem {t : ℝ} (h0 : 0 ≤ t) (h1 : t ≤ 1) :
    0 ≤ easedT t ∧ easedT t ≤ 1 := by
  constructor
  · calc (0 : ℝ) = easedT 0 := easedT_zero.symm
      _ ≤ easedT t := easedT_mono le_rfl h0 h1
  · calc easedT t ≤ easedT 1 := easedT_mono h0 h1 le_rfl
      _ = 1 := easedT_one

/-- Blending at parameter `0` returns the first point set entry. -/
lemma vecLerp_zero (s tr : Vec3) : vecLerp s tr 0 = s := by
  cases s; cases tr
  simp only [vecLerp, mathUtilsLerp, Vec3.mk.injEq]
  refine ⟨by ring, by ring, by ring⟩

/-- Blending at parameter `1` returns the second point set entry. -/
lemma vecLerp_one (s tr : Vec3) : vecLerp s tr 1 = tr := by
  cases s; cases tr
  simp only [vecLerp, mathUtilsLerp, Vec3.mk.injEq]
  refine ⟨by ring, by ring, by ring⟩

end EasingLemmas

section TrigLemmas

/-- Squared norm of a spherically parameterized point. -/
lemma spherical_norm_sq (sr θ φ : ℝ) :
    (sr * Real.sin φ * Real.cos θ) ^ 2 + (sr * Real.sin φ * Real.sin θ) ^ 2
      + (sr * Real.cos φ) ^ 2 = sr ^ 2 := by
  have h1 : Real.sin θ ^ 2 + Real.cos θ ^ 2 = 1 := Real.sin_sq_add_cos_sq θ
  have h2 : Real.sin φ ^ 2 + Real.cos φ ^ 2 = 1 := Real.sin_sq_add_cos_sq φ
  linear_combination sr ^ 2 * Real.sin φ ^ 2 * h1 + sr ^ 2 * h2

/-- Squared horizontal norm of a point on a circle of radius `r`. -/
lemma circle_norm_sq (r a : ℝ) :
    (Real.cos a * r) ^ 2 + (Real.sin a * r) ^ 2 = r ^ 2 := by
  have h : Real.sin a ^ 2 + Real.cos a ^ 2 = 1 := Real.sin_sq_add_cos_sq a
  linear_combination r ^ 2 * h

end TrigLemmas

/-- C1: on every frame update of Foliage, Spiral and Ornaments, the progress
is stepped linearly toward the toggle target (`1` for `TREE_SHAPE`, `0`
otherwise) by `speed * delta` (rate `2.0` for Foliage and Spiral, `1.5` for
Ornaments), clamped so it never overshoots the target. -/
theorem progress_steps_linearly_toward_toggle_target
    (treeState : TreeMorphState) (delta p : ℝ)
    (hd : 0 ≤ delta) (h0 : 0 ≤ p) (h1 : p ≤ 1) :
    StepsTowardToggleTarget treeState delta p := by
  have hT := morphTarget_cases treeState
  unfold StepsTowardToggleTarget
  constructor
  · intro hpT
    refine ⟨?_, ?_, ?_⟩
    · rw [foliageFrameStep_eq]
      exact clampedStep_of_le (by linarith) h0 hT hpT
    · rw [spiralFrameStep_eq]
      exact clampedStep_of_le (by linarith) h0 hT hpT
    · rw [ornamentProgressStep_eq]
      exact clampedStep_of_le (by nlinarith) h0 hT hpT
  · intro hpT
    refine ⟨?_, ?_, ?_⟩
    · rw [foliageFrameStep_eq]
      exact clampedStep_of_ge (by linarith) h1 hT hpT
    · rw [spiralFrameStep_eq]
      exact clampedStep_of_ge (by linarith) h1 hT hpT
    · rw [ornamentProgressStep_eq]
      exact clampedStep_of_ge (by nlinarith) h1 hT hpT

/-- Witness for C1 at `treeState = TREE_SHAPE`, `delta = 1/4`, `p = 1/2`. -/
theorem progress_steps_linearly_toward_toggle_target_witness :
    (0 : ℝ) ≤ 1 / 4 ∧ (0 : ℝ) ≤ 1 / 2 ∧ (1 / 2 : ℝ) ≤ 1
    ∧ StepsTowardToggleTarget TREE_SHAPE (1 / 4) (1 / 2) :=
  ⟨by norm_num, by norm_num, by norm_num,
    progress_steps_linearly_toward_toggle_target TREE_SHAPE (1 / 4) (1 / 2)
      (by norm_num) (by norm_num) (by norm_num)⟩

/-- C2 counterexample: the blend parameter applied by Ornaments to the two
point sets is NOT the progress value itself. With progress `1/4` the written
x-coordinate (for scatter `0`, tree `1`) differs from the lerp at the raw
progress value: the code blends at `easedT (1/4) = 1/16`, not `1/4`. -/
theorem ornament_blend_not_raw_progress :
    (ornamentSphereFramePos TREE_SHAPE 0 (1 / 4)
        { x := 0, y := 0, z := 0 } { x := 1, y := 1, z := 1 }).x
      ≠ mathUtilsLerp 0 1 (ornamentProgressStep TREE_SHAPE 0 (1 / 4)) := by
  have hstep : ornamentProgressStep TREE_SHAPE 0 (1 / 4) = 1 / 4 := by
    rw [ornamentProgressStep_eq, morphTarget_tree]
    rw [if_pos (by norm_num : (1 / 4 : ℝ) < 1)]
    rw [show (1 / 4 : ℝ) + 1.5 * 0 = 1 / 4 by norm_num]
    exact min_eq_left (by norm_num)
  have heased : easedT (1 / 4) = 1 / 16 := by
    rw [easedT, if_pos (by norm_num : (1 / 4 : ℝ) < 0.5)]
    norm_num
  simp only [ornamentSphereFramePos, hstep, heased, mathUtilsLerp]
  norm_num

/-- C2 amended: on every frame each Ornaments instance's position is the
componentwise lerp of its scatter and tree positions at `easedT` of the
stepped progress (the cubic ease-in-out of the raw progress, not the raw
progress itself); sphere instances get exactly that position, box instances
additionally get the floating noise on `y` while the progress is below
`0.9`. -/
theorem ornament_blend_uses_eased_progress (treeState : TreeMorphState)
    (delta progress time id : ℝ) (scatterPos treePos : Vec3) :
    ornamentSphereFramePos treeState delta progress scatterPos treePos
      = vecLerp scatterPos treePos (easedT (ornamentProgressStep treeState delta progress))
    ∧ (∃ noise : ℝ,
        ornamentBoxFramePos treeState delta progress time id scatterPos treePos
          = { vecLerp scatterPos treePos
                (easedT (ornamentProgressStep treeState delta progress)) with
              y := (vecLerp scatterPos treePos
                (easedT (ornamentProgressStep treeState delta progress))).y + noise }) := by
  constructor
  · rfl
  · by_cases h : ornamentProgressStep treeState delta progress < 0.9
    · refine ⟨Real.sin (time + id)
        * ((1 - ornamentProgressStep treeState delta progress) * 0.5), ?_⟩
      simp only [ornamentBoxFramePos, vecLerp]
      rw [if_pos h]
    · refine ⟨0, ?_⟩
      simp only [ornamentBoxFramePos, vecLerp]
      rw [if_neg h]
      simp

/-- C3: under a constant toggle state, the Foliage and Spiral progress after
frames with elapsed-time steps `deltas` is `min (p0 + 2 * sum) 1` under
`TREE_SHAPE` and `max (p0 - 2 * sum) 0` under `SCATTERED`; once the
accumulated delta reaches `0.5` from an endpoint the progress equals the
target exactly. -/
theorem constant_toggle_progress_closed_form (deltas : List ℝ) (p0 : ℝ)
    (hd : ∀ d ∈ deltas, 0 ≤ d) (h0 : 0 ≤ p0) (h1 : p0 ≤ 1) :
    ConstantToggleProgress deltas p0 := by
  unfold ConstantToggleProgress
  have hA := foliageProgressAfter_tree deltas p0 hd h0 h1
  have hB := foliageProgressAfter_scattered deltas p0 hd h0 h1
  have hA0 := foliageProgressAfter_tree deltas 0 hd le_rfl zero_le_one
  have hB1 := foliageProgressAfter_scattered deltas 1 hd zero_le_one le_rfl
  refine ⟨⟨hA, ?_⟩, ⟨hB, ?_⟩, ?_⟩
  · rw [spiralProgressAfter_eq_foliage]; exact hA
  · rw [spiralProgressAfter_eq_foliage]; exact hB
  · intro hsum
    have hS1 : (1 : ℝ) ≤ 0 + 2 * deltas.sum := by linarith
    have hS0 : (1 : ℝ) - 2 * deltas.sum ≤ 0 := by linarith
    refine ⟨⟨?_, ?_⟩, ?_, ?_⟩
    · rw [hA0]; exact min_eq_right hS1
    · rw [spiralProgressAfter_eq_foliage, hA0]; exact min_eq_right hS1
    · rw [hB1]; exact max_eq_right hS0
    · rw [spiralProgressAfter_eq_foliage, hB1]; exact max_eq_right hS0

/-- Witness for C3 with `deltas = [3/4]`, `p0 = 1/3`. -/
theorem constant_toggle_progress_closed_form_witness :
    (∀ d ∈ [(3 / 4 : ℝ)], 0 ≤ d) ∧ (0 : ℝ) ≤ 1 / 3 ∧ (1 / 3 : ℝ) ≤ 1
    ∧ ConstantToggleProgress [(3 / 4 : ℝ)] (1 / 3) := by
  have hd : ∀ d ∈ [(3 / 4 : ℝ)], 0 ≤ d := by
    intro d hdm
    rw [List.mem_singleton] at hdm
    subst hdm
    norm_num
  exact ⟨hd, by norm_num, by norm_num,
    constant_toggle_progress_closed_form [(3 / 4 : ℝ)] (1 / 3) hd
      (by norm_num) (by norm_num)⟩

/-- C4: foliage particle `i` of `n` with `t = i / n` gets the conical-spiral
tree point `y = -H/2 + t*H`, `(x, z) = (cos a * r, sin a * r)` with
`a = t * 2 * pi * 30` and `r = ((H/2 - y)/H) * R + j` for a jitter
`j ∈ [-0.75, 0.75)`, and a scatter point of Euclidean norm at most
`SCATTER_RADIUS`. -/
theorem foliage_generation_cone_spiral_and_scatter_ball
    (TREE_HEIGHT TREE_RADIUS_BOTTOM SCATTER_RADIUS : ℝ)
    (FOLIAGE_COUNT i : ℕ) (jitter u1 u2 u3 : ℝ)
    (hj0 : 0 ≤ jitter) (hj1 : jitter < 1)
    (hu0 : 0 ≤ u3) (hu1 : u3 < 1) (hS : 0 ≤ SCATTER_RADIUS) :
    FoliageGenSpec TREE_HEIGHT TREE_RADIUS_BOTTOM SCATTER_RADIUS
      FOLIAGE_COUNT i jitter u1 u2 u3 := by
  simp only [FoliageGenSpec]
  refine ⟨rfl, ⟨(jitter - 0.5) * 1.5, by linarith, by linarith, ?_, ?_⟩, ?_⟩
  · have harg : ((i : ℝ) / (FOLIAGE_COUNT : ℝ)) * Real.pi * 2 * 30
        = ((i : ℝ) / (FOLIAGE_COUNT : ℝ)) * 2 * Real.pi * 30 := by ring
    simp only [foliageTreePos]
    rw [harg]
  · have harg : ((i : ℝ) / (FOLIAGE_COUNT : ℝ)) * Real.pi * 2 * 30
        = ((i : ℝ) / (FOLIAGE_COUNT : ℝ)) * 2 * Real.pi * 30 := by ring
    simp only [foliageTreePos]
    rw [harg]
  · simp only [foliageScatterPos]
    have hcb0 : 0 ≤ mathCbrt u3 := by
      unfold mathCbrt
      exact Real.rpow_nonneg hu0 _
    have hsr0 : 0 ≤ SCATTER_RADIUS * mathCbrt u3 := mul_nonneg hS hcb0
    rw [spherical_norm_sq, Real.sqrt_sq hsr0]
    have hcb1 : mathCbrt u3 ≤ 1 := by
      unfold mathCbrt
      exact Real.rpow_le_one hu0 hu1.le (by norm_num)
    exact mul_le_of_le_one_right hS hcb1

/-- Witness for C4 with `H = 5`, `R = 2`, `S = 3`, `n = 100`, `i = 7`,
jitter and randomness samples `1/2`. -/
theorem foliage_generation_cone_spiral_and_scatter_ball_witness :
    (0 : ℝ) ≤ 1 / 2 ∧ (1 / 2 : ℝ) < 1 ∧ (0 : ℝ) ≤ 3
    ∧ FoliageGenSpec 5 2 3 100 7 (1 / 2) (1 / 2) (1 / 2) (1 / 2) :=
  ⟨by norm_num, by norm_num, by norm_num,
    foliage_generation_cone_spiral_and_scatter_ball 5 2 3 100 7
      (1 / 2) (1 / 2) (1 / 2) (1 / 2)
      (by norm_num) (by norm_num) (by norm_num) (by norm_num) (by norm_num)⟩

/-- C5: when rendering the Memories subtree throws, the `ImageErrorBoundary`
sets `hasError`, renders `null`, the error does not propagate out of the
boundary, and the remaining scene components (Foliage, Ornaments, Spiral,
Star) are still rendered. -/
theorem image_error_boundary_suppresses_failure (e : String) :
    getDerivedStateFromError.hasError = true
    ∧ imageErrorBoundaryRenderPass getDerivedStateFromError (Except.error e) = Except.ok none
    ∧ runImageErrorBoundary (Except.error e) = Except.ok none
    ∧ experienceScene (Except.error e)
        = Except.ok [some SceneElem.foliageElem, some SceneElem.ornamentsElem,
            some SceneElem.spiralElem, none, some SceneElem.starElem] :=
  ⟨rfl, rfl, rfl, rfl⟩

/-- C6: the memoized point-set and attribute arrays of Foliage and Spiral
are left unchanged by every run of their `useFrame` callbacks, which touch
only the shader uniforms and the progress ref. -/
theorem point_sets_unchanged_by_frames
    (frames : List (TreeMorphState × ℝ × ℝ × ℝ))
    (s : FoliageFrameState) (s2 : SpiralFrameState) :
    ((foliageFrameRun frames s).positions = s.positions
      ∧ (foliageFrameRun frames s).scatterPositions = s.scatterPositions
      ∧ (foliageFrameRun frames s).randoms = s.randoms)
    ∧ ((spiralFrameRun frames s2).treePositions = s2.treePositions
      ∧ (spiralFrameRun frames s2).scatterPositions = s2.scatterPositions
      ∧ (spiralFrameRun frames s2).lineProgress = s2.lineProgress) := by
  induction frames generalizing s s2 with
  | nil => exact ⟨⟨rfl, rfl, rfl⟩, rfl, rfl, rfl⟩
  | cons f fs ih =>
      exact ih (foliageFrame f.1 f.2.1 f.2.2.1 f.2.2.2 s)
        (spiralFrame f.1 f.2.1 f.2.2.1 f.2.2.2 s2)

/-- C7: the Overlay renders exactly one button; its click handler is the
`onToggle` callback itself (so a click invokes it once), and its label is
"RELEASE MEMORY" when the state is `TREE_SHAPE` and "RESTORE ORDER" for any
other state value. -/
theorem overlay_single_button (σ : Type) (treeState : TreeMorphState)
    (onToggle : σ → σ) (b : OverlayButton σ)
    (hb : b ∈ overlayRender treeState onToggle) :
    (overlayRender treeState onToggle).length = 1
    ∧ b.onClick = onToggle
    ∧ b.label = (if treeState = TREE_SHAPE then "RELEASE MEMORY" else "RESTORE ORDER") := by
  have hsingle : overlayRender treeState onToggle
      = [{ label := if treeState = TREE_SHAPE then "RELEASE MEMORY" else "RESTORE ORDER"
           onClick := onToggle }] := by
    cases treeState <;> simp [overlayRender]
  rw [hsingle, List.mem_singleton] at hb
  subst hb
  exact ⟨by rw [hsingle]; rfl, rfl, rfl⟩

/-- Witness for C7 at `SCATTERED` with `onToggle = Nat.succ`. -/
theorem overlay_single_button_witness :
    ({ label := "RESTORE ORDER", onClick := Nat.succ } : OverlayButton ℕ)
        ∈ overlayRender SCATTERED Nat.succ
    ∧ (overlayRender (σ := ℕ) SCATTERED Nat.succ).length = 1
    ∧ ({ label := "RESTORE ORDER", onClick := Nat.succ } : OverlayButton ℕ).onClick = Nat.succ
    ∧ ({ label := "RESTORE ORDER", onClick := Nat.succ } : OverlayButton ℕ).label
        = (if SCATTERED = TREE_SHAPE then "RELEASE MEMORY" else "RESTORE ORDER") :=
  have hmem : ({ label := "RESTORE ORDER", onClick := Nat.succ } : OverlayButton ℕ)
      ∈ overlayRender SCATTERED Nat.succ := List.mem_singleton.mpr rfl
  ⟨hmem, overlay_single_button ℕ SCATTERED Nat.succ _ hmem⟩

/-- C8: the transition progress of Foliage, Spiral and Ornaments always
lies in `[0, 1]`: every frame update with nonnegative delta preserves the
interval, and starting from `0` every run of frames stays inside it. -/
theorem progress_always_in_unit_interval (treeState : TreeMorphState)
    (delta p : ℝ) (hd : 0 ≤ delta) (h0 : 0 ≤ p) (h1 : p ≤ 1) :
    ProgressStaysInUnitInterval treeState delta p
    ∧ (∀ frames : List (TreeMorphState × ℝ), (∀ f ∈ frames, 0 ≤ f.2) →
        (0 ≤ foliageProgressRun frames 0 ∧ foliageProgressRun frames 0 ≤ 1)
        ∧ (0 ≤ spiralProgressRun frames 0 ∧ spiralProgressRun frames 0 ≤ 1)
        ∧ (0 ≤ ornamentProgressRun frames 0 ∧ ornamentProgressRun frames 0 ≤ 1)) := by
  constructor
  · unfold ProgressStaysInUnitInterval
    refine ⟨foliageFrameStep_mem treeState delta p hd h0 h1, ?_, ?_⟩
    · rw [spiralFrameStep_eq_foliage]
      exact foliageFrameStep_mem treeState delta p hd h0 h1
    · exact ornamentProgressStep_mem treeState delta p hd h0 h1
  · intro frames hf
    refine ⟨foliageProgressRun_mem frames 0 hf le_rfl zero_le_one, ?_, ?_⟩
    · rw [spiralProgressRun_eq_foliage]
      exact foliageProgressRun_mem frames 0 hf le_rfl zero_le_one
    · exact ornamentProgressRun_mem frames 0 hf le_rfl zero_le_one

/-- Witness for C8 at `treeState = SCATTERED`, `delta = 2`, `p = 1`. -/
theorem progress_always_in_unit_interval_witness :
    (0 : ℝ) ≤ 2 ∧ (0 : ℝ) ≤ 1 ∧ (1 : ℝ) ≤ 1
    ∧ (ProgressStaysInUnitInterval SCATTERED 2 1
      ∧ (∀ frames : List (TreeMorphState × ℝ), (∀ f ∈ frames, 0 ≤ f.2) →
          (0 ≤ foliageProgressRun frames 0 ∧ foliageProgressRun frames 0 ≤ 1)
          ∧ (0 ≤ spiralProgressRun frames 0 ∧ spiralProgressRun frames 0 ≤ 1)
          ∧ (0 ≤ ornamentProgressRun frames 0 ∧ ornamentProgressRun frames 0 ≤ 1))) :=
  ⟨by norm_num, by norm_num, by norm_num,
    progress_always_in_unit_interval SCATTERED 2 1
      (by norm_num) (by norm_num) (by norm_num)⟩

/-- C9: `easedT` maps `[0, 1]` into `[0, 1]`, is monotonically
non-decreasing on `[0, 1]`, fixes both endpoints, and consequently the
blended (pre-noise) ornament position equals the scatter position exactly at
progress `0` and the tree position exactly at progress `1`. -/
theorem easedT_unit_monotone_fixed_endpoints (t a b : ℝ)
    (ht0 : 0 ≤ t) (ht1 : t ≤ 1) (ha : 0 ≤ a) (hab : a ≤ b) (hb : b ≤ 1) :
    (0 ≤ easedT t ∧ easedT t ≤ 1)
    ∧ easedT a ≤ easedT b
    ∧ easedT 0 = 0 ∧ easedT 1 = 1
    ∧ (∀ s tr : Vec3, vecLerp s tr (easedT 0) = s ∧ vecLerp s tr (easedT 1) = tr) := by
  refine ⟨easedT_mem ht0 ht1, easedT_mono ha hab hb, easedT_zero, easedT_one, ?_⟩
  intro s tr
  rw [easedT_zero, easedT_one]
  exact ⟨vecLerp_zero s tr, vecLerp_one s tr⟩

/-- Witness for C9 at `t = 1/2`, `a = 1/4`, `b = 3/4`. -/
theorem easedT_unit_monotone_fixed_endpoints_witness :
    ((0 : ℝ) ≤ 1 / 2 ∧ (1 / 2 : ℝ) ≤ 1 ∧ (0 : ℝ) ≤ 1 / 4
      ∧ (1 / 4 : ℝ) ≤ 3 / 4 ∧ (3 / 4 : ℝ) ≤ 1)
    ∧ ((0 ≤ easedT (1 / 2) ∧ easedT (1 / 2) ≤ 1)
      ∧ easedT (1 / 4) ≤ easedT (3 / 4)
      ∧ easedT 0 = 0 ∧ easedT 1 = 1
      ∧ (∀ s tr : Vec3, vecLerp s tr (easedT 0) = s ∧ vecLerp s tr (easedT 1) = tr)) :=
  ⟨⟨by norm_num, by norm_num, by norm_num, by norm_num, by norm_num⟩,
    easedT_unit_monotone_fixed_endpoints (1 / 2) (1 / 4) (3 / 4)
      (by norm_num) (by norm_num) (by norm_num) (by norm_num) (by norm_num)⟩

/-- C10: every particle of the Spiral's tree-shape helix sits at horizontal
radius at least `0.1` from the central axis, since the generated radius is
`max 0.1 (rawRadius + 0.6)`. -/
theorem spiral_helix_radius_lower_bound (TREE_HEIGHT TREE_RADIUS_BOTTOM : ℝ)
    (SPIRAL_PARTICLE_COUNT i : ℕ) :
    0.1 ≤ Real.sqrt
        ((spiralTreePos TREE_HEIGHT TREE_RADIUS_BOTTOM SPIRAL_PARTICLE_COUNT i).x ^ 2
          + (spiralTreePos TREE_HEIGHT TREE_RADIUS_BOTTOM SPIRAL_PARTICLE_COUNT i).z ^ 2) := by
  simp only [spiralTreePos]
  have h : ∀ (a r : ℝ), 0.1 ≤ r →
      (0.1 : ℝ) ≤ Real.sqrt ((Real.cos a * r) ^ 2 + (Real.sin a * r) ^ 2) := by
    intro a r hr
    rw [circle_norm_sq, Real.sqrt_sq (by linarith)]
    exact hr
  exact h _ _ (le_max_left _ _)

end

end MemoryTree
